import Mathlib

/-!
Verification of the adaptive signal control engine and the telemetry
pipeline of the smart-urban-traffic-manager backend.

The definitions below are a shallow embedding of the Python sources:

* `src/backend/simulation_manager.py` — the canonical per-intersection
  state machine (`_control_traffic_light_state_machine`) and the phase
  topology discoverer (`_discover_network_and_phases`);
* `src/backend/simulation_server.py` — the simulation driver loop
  (`SimulationManager.run`), the queue-draining broadcast loop
  (`broadcast_data`), the connection fan-out
  (`ConnectionManager.broadcast`) and the websocket receive loop
  (`websocket_endpoint`).

Lane waiting times (`traci.lane.getWaitingTime`) are modelled as
natural numbers; the control logic only ever compares and sums them,
so non-negative integers are an adequate abstraction of the
non-negative float seconds the engine reports.  Engine mutations are
recorded as an explicit list of `EngineCall`s.  Python dictionaries
iterate in insertion order, so `phase_to_lanes` and
`yellow_phase_map` are association lists in build order.
-/

/-- MIN_GREEN_TIME constant from simulation_manager.py line 6. -/
def MIN_GREEN_TIME : Nat := 10

/-- YELLOW_PHASE_DURATION constant from simulation_manager.py line 7. -/
def YELLOW_PHASE_DURATION : Nat := 4

/-- An observable mutation of the engine: `traci.trafficlight.setPhase`. -/
inductive EngineCall where
  | setPhase (idx : Nat)
deriving DecidableEq, Repr

/-- The per-intersection record built by `_discover_network_and_phases`
(simulation_manager.py lines 68-75) and mutated by the state machine. -/
structure TlsData where
  phase_to_lanes : List (Nat × List String)
  yellow_phase_map : List (Nat × Nat)
  timer : Nat
  state : String
  current_phase_index : Nat
  target_phase : Option Nat
deriving DecidableEq, Repr

/-- Python dict lookup on an association list (used for
`yellow_phase_map[current]` guarded by the `in` test at lines 114-115). -/
def alookup {β : Type} : List (Nat × β) → Nat → Option β
  | [], _ => none
  | (k, v) :: rest, key => if k = key then some v else alookup rest key

/-- The pressure-maximisation loop of simulation_manager.py lines
102-109: running maximum starts at -1 and the best index starts at the
current phase; a phase replaces the best only with strictly larger
pressure, in dictionary iteration order. -/
def bestPhase : List (Nat × List String) → (String → Nat) → Int → Nat → Int × Nat
  | [], _, maxP, best => (maxP, best)
  | (p, lanes) :: rest, w, maxP, best =>
    let pressure : Int := ((lanes.map w).sum : Nat)
    if pressure > maxP then bestPhase rest w pressure p
    else bestPhase rest w maxP best

/-- One call of `_control_traffic_light_state_machine`
(simulation_manager.py lines 78-126) for one intersection, given the
per-lane waiting-time snapshot `w`.  Returns the updated record and the
engine calls issued; `none` models the TypeError Python would raise if
the YELLOW expiry branch read a `None` target phase (line 89). -/
def stepTLS (d : TlsData) (w : String → Nat) : Option (TlsData × List EngineCall) :=
  let d1 : TlsData := { d with timer := d.timer + 1 }
  if d1.state = "YELLOW" then
    if d1.timer ≥ YELLOW_PHASE_DURATION then
      match d1.target_phase with
      | none => none
      | some p =>
        some ({ d1 with current_phase_index := p, state := "GREEN", timer := 0 },
              [EngineCall.setPhase p])
    else some (d1, [])
  else if d1.state = "GREEN" then
    if d1.timer < MIN_GREEN_TIME then some (d1, [])
    else
      let r := bestPhase d1.phase_to_lanes w (-1) d1.current_phase_index
      if r.2 ≠ d1.current_phase_index ∧ r.1 > 0 then
        match alookup d1.yellow_phase_map d1.current_phase_index with
        | some yellowPhase =>
          some ({ d1 with state := "YELLOW", target_phase := some r.2, timer := 0 },
                [EngineCall.setPhase yellowPhase])
        | none =>
          some ({ d1 with current_phase_index := r.2, timer := 0 },
                [EngineCall.setPhase r.2])
      else some (d1, [])
  else some (d1, [])

/-- Iterated state-machine steps, one per simulation step, each with its
own waiting-time snapshot; accumulates the engine calls in order. -/
def stepSeq : TlsData → List (String → Nat) → Option (TlsData × List EngineCall)
  | d, [] => some (d, [])
  | d, w :: ws =>
    match stepTLS d w with
    | none => none
    | some (d2, cs) =>
      match stepSeq d2 ws with
      | none => none
      | some (d3, cs2) => some (d3, cs ++ cs2)

/-- C1: while the control state is GREEN, a step whose incremented timer
is still below MIN_GREEN_TIME issues no phase-set call and changes
nothing but the timer; conversely any step in GREEN that issues a call
has a timer that has reached MIN_GREEN_TIME, so only then is the
pressure evaluation reached (simulation_manager.py lines 96-100). -/
theorem green_min_hold (d : TlsData) (w : String → Nat)
    (hs : d.state = "GREEN") :
    (d.timer + 1 < MIN_GREEN_TIME →
      stepTLS d w = some ({ d with timer := d.timer + 1 }, [])) ∧
    (∀ d2 cs, stepTLS d w = some (d2, cs) → cs ≠ [] →
      MIN_GREEN_TIME ≤ d.timer + 1) := by
  obtain ⟨ptl, ypm, tm, st, cur, tp⟩ := d
  simp only at hs
  subst hs
  have hne : ¬ (("GREEN" : String) = "YELLOW") := by decide
  constructor
  · intro ht
    simp only at ht
    simp [stepTLS, hne, ht]
  · intro d2 cs h hcs
    by_contra hle
    push_neg at hle
    simp only at hle
    simp [stepTLS, hne, hle] at h
    exact hcs h.2

/-- Witness for C1 at a concrete GREEN state with timer 0. -/
def c1d : TlsData :=
  { phase_to_lanes := [(0, ["L1"]), (2, ["L3"])],
    yellow_phase_map := [(0, 1), (2, 3)],
    timer := 0, state := "GREEN", current_phase_index := 0,
    target_phase := none }

/-- Witness: C1 instantiated at `c1d` with all waiting times zero. -/
theorem green_min_hold_witness :
    (c1d.timer + 1 < MIN_GREEN_TIME →
      stepTLS c1d (fun _ => 0) = some ({ c1d with timer := c1d.timer + 1 }, [])) ∧
    (∀ d2 cs, stepTLS c1d (fun _ => 0) = some (d2, cs) → cs ≠ [] →
      MIN_GREEN_TIME ≤ c1d.timer + 1) :=
  green_min_hold c1d (fun _ => 0) rfl

/-- C2: from a fresh YELLOW state (timer 0, stored target `p`), the first
three steps do nothing but count the timer, and the fourth step issues
exactly one phase-set to `p`, sets the current phase to `p`, returns to
GREEN and resets the timer (simulation_manager.py lines 85-94 and
112-121). -/
theorem yellow_clearance_exact (d : TlsData) (p : Nat)
    (ws : List (String → Nat)) (w4 : String → Nat)
    (hs : d.state = "YELLOW") (ht : d.timer = 0) (htp : d.target_phase = some p)
    (hlen : ws.length = 3) :
    stepSeq d ws = some ({ d with timer := 3 }, []) ∧
    stepSeq d (ws ++ [w4]) =
      some ({ d with state := "GREEN", current_phase_index := p, timer := 0 },
            [EngineCall.setPhase p]) := by
  obtain ⟨w1, w2, w3, rfl⟩ := List.length_eq_three.mp hlen
  obtain ⟨ptl, ypm, tm, st, cur, tp⟩ := d
  simp only at hs ht htp
  subst hs; subst ht; subst htp
  constructor <;> rfl

/-- Concrete YELLOW state used to instantiate C2. -/
def c2d : TlsData :=
  { phase_to_lanes := [(0, ["L1"]), (2, ["L3"])],
    yellow_phase_map := [(0, 1), (2, 3)],
    timer := 0, state := "YELLOW", current_phase_index := 0,
    target_phase := some 2 }

/-- Witness: C2 instantiated at `c2d` with all waiting times zero. -/
theorem yellow_clearance_exact_witness :
    stepSeq c2d [fun _ => 0, fun _ => 0, fun _ => 0] = some ({ c2d with timer := 3 }, []) ∧
    stepSeq c2d [fun _ => 0, fun _ => 0, fun _ => 0, fun _ => 0] =
      some ({ c2d with state := "GREEN", current_phase_index := 2, timer := 0 },
            [EngineCall.setPhase 2]) :=
  yellow_clearance_exact c2d 2 [fun _ => 0, fun _ => 0, fun _ => 0] (fun _ => 0)
    rfl rfl rfl rfl

/-- Pressure loop helper: if no phase in the remaining list beats the
running maximum, the fold returns the running maximum and best index
unchanged. -/
theorem bestPhase_no_improve :
    ∀ (l : List (Nat × List String)) (w : String → Nat) (m : Int) (b : Nat),
      (∀ q ms, (q, ms) ∈ l → ((ms.map w).sum : Int) ≤ m) →
      bestPhase l w m b = (m, b) := by
  intro l
  induction l with
  | nil => intro w m b _; rfl
  | cons hd tl ih =>
    intro w m b h
    obtain ⟨q, ms⟩ := hd
    have hle := h q ms (List.mem_cons_self _ _)
    simp only [bestPhase]
    rw [if_neg (by omega)]
    exact ih w m b (fun q2 ms2 hmem => h q2 ms2 (List.mem_cons_of_mem _ hmem))

/-- GREEN state past minimum green with a pressure tie between the
current phase (index 2) and an earlier-enumerated phase (index 0). -/
def c3d : TlsData :=
  { phase_to_lanes := [(0, ["L1"]), (2, ["L3"])],
    yellow_phase_map := [(0, 1), (2, 3)],
    timer := 10, state := "GREEN", current_phase_index := 2,
    target_phase := none }

/-- Waiting-time snapshot giving both phases of `c3d` equal pressure 5. -/
def c3w : String → Nat := fun lane =>
  if lane = "L1" then 5 else if lane = "L3" then 5 else 0

/-- Counterexample to C3: both green phases of `c3d` have pressure 5 — a
tie that includes the current phase 2 — yet the step issues a phase-set
(the yellow phase 3) and leaves GREEN towards phase 0: a tie in maximum
pressure does cause a switch away from the current phase when the tying
phase is enumerated earlier, because the loop at simulation_manager.py
lines 102-109 starts from max_pressure = -1 and only replaces the best
index on strictly larger pressure. -/
theorem pressure_tie_counterexample :
    (["L1"].map c3w).sum = (["L3"].map c3w).sum ∧
    stepTLS c3d c3w =
      some ({ c3d with state := "YELLOW", target_phase := some 0, timer := 0 },
            [EngineCall.setPhase 3]) := by
  exact ⟨rfl, rfl⟩

/-- C3 amended: a tie in maximum pressure causes no switch away from the
current phase provided the current phase is enumerated first in
`phase_to_lanes`; the selection keeps the earliest-enumerated phase
achieving the maximum, not the current phase as such. -/
theorem tie_keeps_current_when_current_first (d : TlsData) (w : String → Nat)
    (ls : List String) (rest : List (Nat × List String))
    (hs : d.state = "GREEN")
    (hd : d.phase_to_lanes = (d.current_phase_index, ls) :: rest)
    (hmax : ∀ q ms, (q, ms) ∈ rest → ((ms.map w).sum : Int) ≤ ((ls.map w).sum : Int)) :
    stepTLS d w = some ({ d with timer := d.timer + 1 }, []) := by
  obtain ⟨ptl, ypm, tm, st, cur, tp⟩ := d
  simp only at hs hd hmax ⊢
  subst hs; subst hd
  have hne : ¬ (("GREEN" : String) = "YELLOW") := by decide
  have hsum : (((ls.map w).sum : Nat) : Int) > -1 := by omega
  have hbp : bestPhase ((cur, ls) :: rest) w (-1) cur = ((((ls.map w).sum : Nat) : Int), cur) := by
    simp only [bestPhase]
    rw [if_pos hsum]
    exact bestPhase_no_improve rest w _ cur hmax
  simp [stepTLS, hne, hbp]

/-- GREEN state whose current phase (index 2) is enumerated first. -/
def c3amd : TlsData :=
  { phase_to_lanes := [(2, ["L3"]), (0, ["L1"])],
    yellow_phase_map := [(0, 1), (2, 3)],
    timer := 9, state := "GREEN", current_phase_index := 2,
    target_phase := none }

/-- Witness: the amended C3 at a concrete tie with the current phase
enumerated first — no phase-set is issued. -/
theorem tie_keeps_current_when_current_first_witness :
    stepTLS c3amd c3w = some ({ c3amd with timer := 10 }, []) :=
  tie_keeps_current_when_current_first c3amd c3w ["L3"] [(0, ["L1"])] rfl rfl
    (by intro q ms h; simp at h; obtain ⟨rfl, rfl⟩ := h; decide)

/-- Maximum pressure as computed by the loop at simulation_manager.py
lines 102-109 (first component of the fold, starting from -1). -/
def maxPressure (d : TlsData) (w : String → Nat) : Int :=
  (bestPhase d.phase_to_lanes w (-1) d.current_phase_index).1

/-- A single GREEN step with maximum pressure at most zero only counts
the timer and issues no call, whatever the timer value. -/
theorem step_green_no_pressure (d : TlsData) (w : String → Nat)
    (hs : d.state = "GREEN") (hp : maxPressure d w ≤ 0) :
    stepTLS d w = some ({ d with timer := d.timer + 1 }, []) := by
  obtain ⟨ptl, ypm, tm, st, cur, tp⟩ := d
  simp only at hs
  subst hs
  simp only [maxPressure] at hp
  have hne : ¬ (("GREEN" : String) = "YELLOW") := by decide
  by_cases htm : tm + 1 < MIN_GREEN_TIME
  · simp [stepTLS, hne, htm]
  · have hcond : ¬ ((bestPhase ptl w (-1) cur).2 ≠ cur ∧ (bestPhase ptl w (-1) cur).1 > 0) := by
      rintro ⟨-, hpos⟩
      omega
    simp [stepTLS, hne, htm, hcond]

/-- C6: in GREEN, if every step's waiting snapshot yields maximum
pressure at most zero, then arbitrarily many steps issue no phase-set
call, keep the current phase, and never reset the timer — it keeps
counting, so the pressure check repeats on every next step
(simulation_manager.py lines 112-126: a switch requires
max_pressure > 0, and only the switch branches reset the timer). -/
theorem zero_pressure_never_switches (d : TlsData) (ws : List (String → Nat))
    (hs : d.state = "GREEN") (hp : ∀ w ∈ ws, maxPressure d w ≤ 0) :
    stepSeq d ws = some ({ d with timer := d.timer + ws.length }, []) := by
  induction ws generalizing d hs with
  | nil => rfl
  | cons w ws ih =>
    have h1 := step_green_no_pressure d w hs (hp w (List.mem_cons_self _ _))
    have h2 := ih { d with timer := d.timer + 1 } hs
      (fun w2 hw => hp w2 (List.mem_cons_of_mem _ hw))
    simp only [stepSeq, h1, h2, List.length_cons]
    have harith : d.timer + 1 + ws.length = d.timer + (ws.length + 1) := by omega
    simp [harith]

/-- Witness: C6 at `c1d` over three all-zero waiting snapshots. -/
theorem zero_pressure_never_switches_witness :
    stepSeq c1d [fun _ => 0, fun _ => 0, fun _ => 0] = some ({ c1d with timer := 3 }, []) :=
  zero_pressure_never_switches c1d [fun _ => 0, fun _ => 0, fun _ => 0] rfl
    (by intro w hw; simp at hw; rcases hw with rfl | rfl | rfl; decide)

/-- One phase of a signal program: its per-link light-color string
(`phase.state` in the traci logic object), as a list of characters. -/
structure Phase where
  state : List Char
deriving DecidableEq, Inhabited, Repr

/-- The lowercased light-string, `phase.state.lower()` at
simulation_manager.py line 47. -/
def lowerState (p : Phase) : List Char := p.state.map Char.toLower

/-- Candidate green phase test of simulation_manager.py line 48:
a go character is present and no caution character is. -/
def isGreenPhase (p : Phase) : Bool :=
  (lowerState p).contains 'g' && !((lowerState p).contains 'y')

/-- Caution test of simulation_manager.py line 57. -/
def hasYellow (p : Phase) : Bool := (lowerState p).contains 'y'

/-- Indices of candidate green phases, in enumeration order
(simulation_manager.py lines 46-50). -/
def greenPhases (phases : List Phase) : List Nat :=
  (List.range phases.length).filter (fun i => isGreenPhase (phases.getD i default))

/-- The green-to-yellow map of simulation_manager.py lines 53-58: each
candidate green phase `i` maps to `(i+1) mod phaseCount` exactly when
that following phase's lowered string contains a caution character. -/
def yellowPhaseMap (phases : List Phase) : List (Nat × Nat) :=
  (greenPhases phases).filterMap (fun i =>
    let j := (i + 1) % phases.length
    if hasYellow (phases.getD j default) then some (i, j) else none)

/-- Incoming lanes served by one green phase (simulation_manager.py
lines 60-66): for every controlled-link position whose character in the
phase's lowered string is a go character, the incoming lanes of that
link are collected; the Python set is modelled as a duplicate-free list
in insertion order. -/
def phaseLanes (phases : List Phase) (links : List (List String))
    (phaseIdx : Nat) : List String :=
  (List.range links.length).foldl (fun acc linkIdx =>
    let st := lowerState (phases.getD phaseIdx default)
    if linkIdx < st.length ∧ st.getD linkIdx ' ' = 'g' then
      (links.getD linkIdx []).foldl
        (fun acc2 lane => if lane ∈ acc2 then acc2 else acc2 ++ [lane]) acc
    else acc) []

/-- The per-intersection record built by `_discover_network_and_phases`
for one intersection (simulation_manager.py lines 41-75): green phases
with an empty lane set are dropped from `phase_to_lanes` (the `if l`
filter at line 69) but not from `yellow_phase_map`; the control fields
start as GREEN with timer 0, the engine's current phase, and no target. -/
def discover (phases : List Phase) (links : List (List String))
    (initPhase : Nat) : TlsData :=
  { phase_to_lanes := (greenPhases phases).filterMap (fun p =>
      let l := phaseLanes phases links p
      if l = [] then none else some (p, l)),
    yellow_phase_map := yellowPhaseMap phases,
    timer := 0,
    state := "GREEN",
    current_phase_index := initPhase,
    target_phase := none }

/-- Membership in the discovered green-phase list is exactly the
line-48 test at an in-range index. -/
theorem mem_greenPhases (phases : List Phase) (i : Nat) :
    i ∈ greenPhases phases ↔
      i < phases.length ∧ isGreenPhase (phases.getD i default) = true := by
  simp [greenPhases, List.mem_filter, List.mem_range]

/-- Membership in the discovered yellow map characterised. -/
theorem mem_yellowPhaseMap (phases : List Phase) (i j : Nat) :
    (i, j) ∈ yellowPhaseMap phases ↔
      i ∈ greenPhases phases ∧ j = (i + 1) % phases.length ∧
        hasYellow (phases.getD j default) = true := by
  simp only [yellowPhaseMap, List.mem_filterMap]
  constructor
  · rintro ⟨a, ha, hf⟩
    split_ifs at hf with hY
    · simp only [Option.some.injEq, Prod.mk.injEq] at hf
      obtain ⟨rfl, rfl⟩ := hf
      exact ⟨ha, rfl, hY⟩
  · rintro ⟨hg, rfl, hY⟩
    refine ⟨i, hg, ?_⟩
    show (if hasYellow (phases.getD ((i + 1) % phases.length) default) then
        some (i, (i + 1) % phases.length) else none) = some (i, (i + 1) % phases.length)
    rw [if_pos hY]

/-- Intersection with one candidate green phase, a following caution
phase, and no controlled links at all. -/
def c4phases : List Phase := [⟨['g']⟩, ⟨['y']⟩]

/-- Counterexample to C4: with no controlled links, phase 0 of
`c4phases` is a candidate green phase with an empty lane set; it is
dropped from phase_to_lanes by the non-empty filter
(simulation_manager.py line 69) yet kept as a key of yellow_phase_map
(lines 53-58), so a key of the yellow map is not a key of
phase_to_lanes. -/
theorem yellow_map_key_counterexample :
    (discover c4phases [] 0).yellow_phase_map = [(0, 1)] ∧
    (discover c4phases [] 0).phase_to_lanes = [] ∧
    alookup (discover c4phases [] 0).phase_to_lanes 0 = none := by
  exact ⟨rfl, rfl, rfl⟩

/-- C4 amended: every pair (i, j) of the discovered yellow map has i a
candidate green phase (lowered string has a go character and no caution
character) and j = (i+1) mod phaseCount with a caution character
somewhere in its lowered string; neither membership of i in
phase_to_lanes nor positional alignment of caution with the go
positions is guaranteed by the code. -/
theorem yellow_map_sound (phases : List Phase) (links : List (List String))
    (initPhase i j : Nat)
    (h : (i, j) ∈ (discover phases links initPhase).yellow_phase_map) :
    i < phases.length ∧
    (lowerState (phases.getD i default)).contains 'g' = true ∧
    (lowerState (phases.getD i default)).contains 'y' = false ∧
    j = (i + 1) % phases.length ∧
    (lowerState (phases.getD j default)).contains 'y' = true := by
  have h2 : (i, j) ∈ yellowPhaseMap phases := h
  rw [mem_yellowPhaseMap] at h2
  obtain ⟨hg, hj, hY⟩ := h2
  rw [mem_greenPhases] at hg
  obtain ⟨hlen, hgreen⟩ := hg
  simp only [isGreenPhase, Bool.and_eq_true, Bool.not_eq_true'] at hgreen
  exact ⟨hlen, hgreen.1, hgreen.2, hj, by simpa [hasYellow] using hY⟩

/-- Four-phase catalog in the style of the spec's section-8 scenario:
two green phases, each followed by its caution phase. -/
def c5phases : List Phase :=
  [⟨['g', 'r']⟩, ⟨['y', 'r']⟩, ⟨['r', 'g']⟩, ⟨['r', 'y']⟩]

/-- Controlled links of the scenario: link 0 comes from lane L1, link 1
from lane L3. -/
def c5links : List (List String) := [["L1"], ["L3"]]

/-- Witness: the amended C4 at the pair (0, 1) of the scenario catalog. -/
theorem yellow_map_sound_witness :
    0 < c5phases.length ∧
    (lowerState (c5phases.getD 0 default)).contains 'g' = true ∧
    (lowerState (c5phases.getD 0 default)).contains 'y' = false ∧
    1 = (0 + 1) % c5phases.length ∧
    (lowerState (c5phases.getD 1 default)).contains 'y' = true :=
  yellow_map_sound c5phases c5links 0 0 1 (by decide)

/-- C5: a phase index is classified as a candidate green phase exactly
when it is in range and its lowered light-string contains a go
character and no caution character; and a candidate green phase i is
mapped to a yellow-clearance phase j exactly when j = (i+1) mod
phaseCount and that phase's lowered string contains a caution
character (simulation_manager.py lines 46-58). -/
theorem green_classification (phases : List Phase) (i : Nat) :
    (i ∈ greenPhases phases ↔
      i < phases.length ∧
        (lowerState (phases.getD i default)).contains 'g' = true ∧
        (lowerState (phases.getD i default)).contains 'y' = false) ∧
    (∀ j, (i, j) ∈ yellowPhaseMap phases ↔
      i ∈ greenPhases phases ∧ j = (i + 1) % phases.length ∧
        (lowerState (phases.getD j default)).contains 'y' = true) := by
  constructor
  · rw [mem_greenPhases]
    simp [isGreenPhase, Bool.and_eq_true, Bool.not_eq_true']
  · intro j
    rw [mem_yellowPhaseMap]
    simp [hasYellow]

/-- The pressure loop returns either its initial best index (the current
phase) or the key of some entry of the iterated list. -/
theorem bestPhase_mem (l : List (Nat × List String)) (w : String → Nat) :
    ∀ (m : Int) (b : Nat),
      (bestPhase l w m b).2 = b ∨ ∃ ls, ((bestPhase l w m b).2, ls) ∈ l := by
  induction l with
  | nil => intro m b; left; rfl
  | cons hd tl ih =>
    intro m b
    obtain ⟨q, ms⟩ := hd
    simp only [bestPhase]
    split_ifs with hgt
    · rcases ih _ q with h | ⟨ls, h⟩
      · right; exact ⟨ms, by rw [h]; exact List.mem_cons_self _ _⟩
      · right; exact ⟨ls, List.mem_cons_of_mem _ h⟩
    · rcases ih _ b with h | ⟨ls, h⟩
      · left; exact h
      · right; exact ⟨ls, List.mem_cons_of_mem _ h⟩

/-- Control-state invariant: every mapped lane list is non-empty, and in
YELLOW the stored target phase is a key of phase_to_lanes. -/
def GoodTarget (d : TlsData) : Prop :=
  (∀ p ls, (p, ls) ∈ d.phase_to_lanes → ls ≠ []) ∧
  (d.state = "YELLOW" → ∃ p ls, d.target_phase = some p ∧ (p, ls) ∈ d.phase_to_lanes)

/-- One state-machine step preserves the invariant. -/
theorem stepTLS_preserves (d : TlsData) (w : String → Nat) (d2 : TlsData)
    (cs : List EngineCall) (hg : GoodTarget d)
    (h : stepTLS d w = some (d2, cs)) : GoodTarget d2 := by
  obtain ⟨ptl, ypm, tm, st, cur, tp⟩ := d
  obtain ⟨hne, hyel⟩ := hg
  by_cases hY : st = "YELLOW"
  · subst hY
    by_cases ht : tm + 1 ≥ YELLOW_PHASE_DURATION
    · obtain ⟨p, ls, htp, hmem⟩ := hyel rfl
      simp only at htp
      subst htp
      simp [stepTLS, ht] at h
      obtain ⟨rfl, rfl⟩ := h
      exact ⟨hne, fun hc => absurd hc (by simp)⟩
    · simp [stepTLS, ht] at h
      obtain ⟨rfl, rfl⟩ := h
      exact ⟨hne, fun _ => hyel rfl⟩
  · by_cases hG : st = "GREEN"
    · subst hG
      by_cases htm : tm + 1 < MIN_GREEN_TIME
      · simp [stepTLS, htm] at h
        obtain ⟨rfl, rfl⟩ := h
        exact ⟨hne, fun hc => absurd hc (by simp)⟩
      · by_cases hcond : (bestPhase ptl w (-1) cur).2 ≠ cur ∧ (bestPhase ptl w (-1) cur).1 > 0
        · cases hyp : alookup ypm cur with
          | none =>
            simp [stepTLS, htm, hcond, hyp] at h
            obtain ⟨rfl, rfl⟩ := h
            exact ⟨hne, fun hc => absurd hc (by simp)⟩
          | some yp =>
            simp [stepTLS, htm, hcond, hyp] at h
            obtain ⟨rfl, rfl⟩ := h
            refine ⟨hne, fun _ => ?_⟩
            rcases bestPhase_mem ptl w (-1) cur with heq | ⟨ls, hmem⟩
            · exact absurd heq hcond.1
            · exact ⟨(bestPhase ptl w (-1) cur).2, ls, rfl, hmem⟩
        · simp [stepTLS, htm, hcond] at h
          obtain ⟨rfl, rfl⟩ := h
          exact ⟨hne, fun hc => absurd hc (by simp)⟩
    · simp [stepTLS, hY, hG] at h
      obtain ⟨rfl, rfl⟩ := h
      exact ⟨hne, fun hc => absurd hc hY⟩

/-- Sequences of steps preserve the invariant. -/
theorem stepSeq_preserves :
    ∀ (ws : List (String → Nat)) (d0 : TlsData), GoodTarget d0 →
      ∀ d1 cs1, stepSeq d0 ws = some (d1, cs1) → GoodTarget d1 := by
  intro ws
  induction ws with
  | nil =>
    intro d0 hg d1 cs1 h1
    simp [stepSeq] at h1
    exact h1.1 ▸ hg
  | cons w ws ih =>
    intro d0 hg d1 cs1 h1
    simp only [stepSeq] at h1
    cases h2 : stepTLS d0 w with
    | none => simp [h2] at h1
    | some pr =>
      obtain ⟨dmid, csmid⟩ := pr
      simp only [h2] at h1
      cases h3 : stepSeq dmid ws with
      | none => simp [h3] at h1
      | some pr2 =>
        obtain ⟨dfin, csfin⟩ := pr2
        simp only [h3] at h1
        simp at h1
        obtain ⟨rfl, rfl⟩ := h1
        exact ih dmid (stepTLS_preserves d0 w dmid csmid hg h2) dfin csfin h3

/-- The discovered initial record satisfies the invariant. -/
theorem discover_goodTarget (phases : List Phase) (links : List (List String))
    (initPhase : Nat) : GoodTarget (discover phases links initPhase) := by
  constructor
  · intro p ls hmem
    simp only [discover, List.mem_filterMap] at hmem
    obtain ⟨a, ha, hf⟩ := hmem
    split_ifs at hf with hnil
    simp only [Option.some.injEq, Prod.mk.injEq] at hf
    obtain ⟨rfl, rfl⟩ := hf
    exact hnil
  · intro hc
    simp [discover] at hc

/-- C10: in every control state reachable from discovery by any number
of state-machine steps (with arbitrary waiting snapshots), whenever the
state field is YELLOW the stored target phase is a key of
phase_to_lanes — in particular not None — and its mapped lane list is
non-empty, so the phase-set issued at yellow expiry always targets a
discovered green phase with a non-empty lane set
(simulation_manager.py lines 68-75, 85-121). -/
theorem yellow_target_valid (phases : List Phase) (links : List (List String))
    (initPhase : Nat) (ws : List (String → Nat)) (d : TlsData)
    (cs : List EngineCall)
    (h : stepSeq (discover phases links initPhase) ws = some (d, cs))
    (hy : d.state = "YELLOW") :
    ∃ p ls, d.target_phase = some p ∧ (p, ls) ∈ d.phase_to_lanes ∧ ls ≠ [] := by
  obtain ⟨hne2, hyel2⟩ :=
    stepSeq_preserves ws _ (discover_goodTarget phases links initPhase) d cs h
  obtain ⟨p, ls, htp, hmem⟩ := hyel2 hy
  exact ⟨p, ls, htp, hmem, hne2 p ls hmem⟩

/-- Waiting snapshot with 30 seconds accumulated on lane L3 only. -/
def c10w : String → Nat := fun lane => if lane = "L3" then 30 else 0

/-- The control state reached from discovery on the scenario network
after ten steps of `c10w`: a YELLOW transition towards phase 2. -/
def c10final : TlsData :=
  { phase_to_lanes := [(0, ["L1"]), (2, ["L3"])],
    yellow_phase_map := [(0, 1), (2, 3)],
    timer := 0, state := "YELLOW", current_phase_index := 0,
    target_phase := some 2 }

/-- Witness: C10 at the concrete reachable YELLOW state `c10final`. -/
theorem yellow_target_valid_witness :
    ∃ p ls, c10final.target_phase = some p ∧
      (p, ls) ∈ c10final.phase_to_lanes ∧ ls ≠ [] :=
  yellow_target_valid c5phases c5links 0 (List.replicate 10 c10w) c10final
    [EngineCall.setPhase 1] (by decide) rfl

/-- Telemetry queue items: one `data_queue.put(human_readable_data)` per
step (simulation_server.py line 91) and the terminal `None` put by the
finally block (line 101). -/
inductive QueueItem where
  | snapshot (step : Nat)
  | sentinel
deriving DecidableEq, Repr

/-- Engine environment of the driver loop: the expected remaining
vehicle count read in the loop condition (simulation_server.py line 56)
and whether the body raises an exception after the snapshot is queued
(e.g. in the control logic at lines 94-95). -/
structure SimEnv where
  minExpected : Nat → Nat
  stepRaises : Nat → Bool

/-- The while loop of SimulationManager.run (simulation_server.py lines
54-97): while step < max_steps and vehicles remain, each iteration
enqueues exactly one snapshot; an exception after the put ends the loop
early. The fuel argument equals maxSteps - step on every call, so fuel
maxSteps at step 0 covers the whole loop — when fuel runs out, step has
reached maxSteps and the real loop condition is false as well. -/
def runLoopAux (maxSteps : Nat) (env : SimEnv) : Nat → Nat → List QueueItem
  | 0, _ => []
  | fuel + 1, step =>
    if step < maxSteps ∧ env.minExpected step > 0 then
      QueueItem.snapshot step ::
        (if env.stepRaises step then [] else runLoopAux maxSteps env fuel (step + 1))
    else []

/-- Everything the driver thread ever puts on the telemetry queue: the
per-step snapshots, then the sentinel from the finally block, once. -/
def runQueue (maxSteps : Nat) (env : SimEnv) : List QueueItem :=
  runLoopAux maxSteps env maxSteps 0 ++ [QueueItem.sentinel]

/-- Messages a client can receive from the fan-out. -/
inductive OutMsg where
  | data (step : Nat)
  | finished
deriving DecidableEq, Repr

/-- One connected websocket client; `disconnected` means a send to it
raises. -/
structure Client where
  id : Nat
  disconnected : Bool
deriving DecidableEq, Repr

/-- ConnectionManager.broadcast (simulation_server.py lines 185-187):
sends to every client in list order with no per-client error handling,
so the first failing send aborts the iteration. Returns the deliveries
made, as (client id, message) pairs, and whether an exception escaped. -/
def sendAll : List Client → OutMsg → List (Nat × OutMsg) × Bool
  | [], _ => ([], false)
  | c :: rest, m =>
    if c.disconnected then ([], true)
    else
      let r := sendAll rest m
      ((c.id, m) :: r.1, r.2)

/-- The broadcast_data loop (simulation_server.py lines 196-209) run
over the final queue contents with a fixed connection list: a sentinel
broadcasts the finished message and breaks; a snapshot is broadcast
and, if that broadcast raised, the except branch breaks the loop. The
connection list is never modified by this loop. Returns all deliveries
in order and whether the loop ended through the except branch. -/
def broadcastDataRun (conns : List Client) : List QueueItem → List (Nat × OutMsg) × Bool
  | [] => ([], false)
  | QueueItem.sentinel :: _ => sendAll conns OutMsg.finished
  | QueueItem.snapshot s :: rest =>
    let r := sendAll conns (OutMsg.data s)
    if r.2 then (r.1, true)
    else
      let r2 := broadcastDataRun conns rest
      (r.1 ++ r2.1, r2.2)

/-- The driver loop enqueues the snapshots of consecutive steps starting
at its entry step, one per executed iteration. -/
theorem runLoopAux_shape (maxSteps : Nat) (env : SimEnv) :
    ∀ (fuel step : Nat), ∃ k,
      runLoopAux maxSteps env fuel step = (List.range' step k).map QueueItem.snapshot := by
  intro fuel
  induction fuel with
  | zero => intro step; exact ⟨0, rfl⟩
  | succ fuel ih =>
    intro step
    by_cases hc : step < maxSteps ∧ env.minExpected step > 0
    · by_cases hr : env.stepRaises step = true
      · exact ⟨1, by simp [runLoopAux, hc, hr, List.range']⟩
      · obtain ⟨k, hk⟩ := ih (step + 1)
        exact ⟨k + 1, by simp [runLoopAux, hc, hr, hk, List.range'_succ]⟩
    · exact ⟨0, by simp [runLoopAux, hc]⟩

/-- Broadcasting to clients that all stay connected delivers the message
to each of them in order and raises nothing. -/
theorem sendAll_ok (m : OutMsg) :
    ∀ (conns : List Client), (∀ c ∈ conns, c.disconnected = false) →
      sendAll conns m = (conns.map fun c => (c.id, m), false) := by
  intro conns
  induction conns with
  | nil => intro _; rfl
  | cons c rest ih =>
    intro h
    have hc := h c (List.mem_cons_self _ _)
    simp [sendAll, hc, ih (fun x hx => h x (List.mem_cons_of_mem _ hx))]

/-- With all clients connected, the fan-out loop over snapshots followed
by the sentinel delivers every snapshot to every client, then the
finished message to every client, and terminates without error. -/
theorem broadcastDataRun_ok (conns : List Client)
    (hok : ∀ c ∈ conns, c.disconnected = false) :
    ∀ (l : List Nat),
      broadcastDataRun conns ((l.map QueueItem.snapshot) ++ [QueueItem.sentinel]) =
        ((l.map fun s => conns.map fun c => (c.id, OutMsg.data s)).flatten ++
          (conns.map fun c => (c.id, OutMsg.finished)), false) := by
  intro l
  induction l with
  | nil => simp [broadcastDataRun, sendAll_ok OutMsg.finished conns hok]
  | cons s rest ih =>
    simp [broadcastDataRun, sendAll_ok (OutMsg.data s) conns hok, ih, List.flatten]

/-- C7: the driver enqueues exactly one snapshot per executed step, in
step order, and the sentinel exactly once, after the last snapshot —
whether the loop ends by the step ceiling, by zero expected vehicles,
or by an exception in the body (the finally block always runs) — and
the fan-out loop over that queue delivers each snapshot and then the
finished message to every connected client and terminates
(simulation_server.py lines 54-101 and 196-209). -/
theorem telemetry_queue_shape (maxSteps : Nat) (env : SimEnv)
    (conns : List Client) (hok : ∀ c ∈ conns, c.disconnected = false) :
    ∃ k,
      runQueue maxSteps env =
        ((List.range k).map QueueItem.snapshot) ++ [QueueItem.sentinel] ∧
      broadcastDataRun conns (runQueue maxSteps env) =
        (((List.range k).map fun s => conns.map fun c => (c.id, OutMsg.data s)).flatten ++
          (conns.map fun c => (c.id, OutMsg.finished)), false) := by
  obtain ⟨k, hk⟩ := runLoopAux_shape maxSteps env maxSteps 0
  have h1 : runQueue maxSteps env =
      ((List.range k).map QueueItem.snapshot) ++ [QueueItem.sentinel] := by
    simp [runQueue, hk, List.range_eq_range']
  refine ⟨k, h1, ?_⟩
  rw [h1]
  exact broadcastDataRun_ok conns hok (List.range k)

/-- Driver environment that always reports remaining vehicles and never
raises. -/
def c7env : SimEnv := { minExpected := fun _ => 1, stepRaises := fun _ => false }

/-- Witness: C7 with a three-step ceiling and one connected client. -/
theorem telemetry_queue_shape_witness :
    ∃ k,
      runQueue 3 c7env =
        ((List.range k).map QueueItem.snapshot) ++ [QueueItem.sentinel] ∧
      broadcastDataRun [⟨1, false⟩] (runQueue 3 c7env) =
        (((List.range k).map fun s =>
            [(⟨1, false⟩ : Client)].map fun c => (c.id, OutMsg.data s)).flatten ++
          ([(⟨1, false⟩ : Client)].map fun c => (c.id, OutMsg.finished)), false) :=
  telemetry_queue_shape 3 c7env [⟨1, false⟩] (by decide)

/-- Counterexample to C8: with clients 1 (connected), 2 (disconnected)
and 3 (connected), broadcasting the first snapshot delivers only to
client 1: the failing send to client 2 propagates out of
ConnectionManager.broadcast (simulation_server.py lines 185-187, no
per-client handling), the except branch of broadcast_data breaks the
loop (lines 207-209), so client 3 never receives the snapshot, the
later snapshot and the finished message are never sent, and no client
is removed from the connection list on this path. -/
theorem send_failure_counterexample :
    broadcastDataRun [⟨1, false⟩, ⟨2, true⟩, ⟨3, false⟩]
        [QueueItem.snapshot 0, QueueItem.snapshot 1, QueueItem.sentinel] =
      ([(1, OutMsg.data 0)], true) := rfl

/-- C8 amended: when a send fails, the exception aborts the broadcast
iteration — exactly the clients before the failing one in list order
receive the message — and propagates to the fan-out loop, which stops;
no snapshot after the failing one is delivered to anyone and the
failing client is not removed by the broadcast path. -/
theorem send_failure_aborts_broadcast (pre suf : List Client) (c : Client)
    (s : Nat) (rest : List QueueItem)
    (hpre : ∀ x ∈ pre, x.disconnected = false) (hc : c.disconnected = true) :
    broadcastDataRun (pre ++ c :: suf) (QueueItem.snapshot s :: rest) =
      (pre.map fun x => (x.id, OutMsg.data s), true) := by
  have hsend : ∀ (l : List Client), (∀ x ∈ l, x.disconnected = false) →
      sendAll (l ++ c :: suf) (OutMsg.data s) =
        (l.map fun x => (x.id, OutMsg.data s), true) := by
    intro l
    induction l with
    | nil => intro _; simp [sendAll, hc]
    | cons a l2 ih =>
      intro h
      have ha := h a (List.mem_cons_self _ _)
      simp [sendAll, ha, ih (fun x hx => h x (List.mem_cons_of_mem _ hx))]
  simp [broadcastDataRun, hsend pre hpre]

/-- Witness: the amended C8 with one connected client before the failing
one. -/
theorem send_failure_aborts_broadcast_witness :
    broadcastDataRun [⟨7, false⟩, ⟨8, true⟩, ⟨9, false⟩]
        [QueueItem.snapshot 5, QueueItem.sentinel] =
      ([(7, OutMsg.data 5)], true) :=
  send_failure_aborts_broadcast [⟨7, false⟩] [⟨9, false⟩] ⟨8, true⟩ 5
    [QueueItem.sentinel] (by decide) rfl

/-- The websocket receive loop body (simulation_server.py lines
224-225): the received text is awaited and discarded — there is no
command parsing, no mode field and no forced-phase handling anywhere in
the server — so an inbound message leaves the control state untouched. -/
def handleClientMessage (d : TlsData) (_msg : String) : TlsData := d

/-- Handling a whole inbound message sequence, in arrival order. -/
def handleClientMessages (d : TlsData) (msgs : List String) : TlsData :=
  msgs.foldl handleClientMessage d

/-- Control state used to refute C9. -/
def c9d : TlsData :=
  { phase_to_lanes := [(0, ["L1"]), (2, ["L3"])],
    yellow_phase_map := [(0, 1), (2, 3)],
    timer := 0, state := "GREEN", current_phase_index := 0,
    target_phase := none }

/-- The SetMode(manual) and ForcePhase(2) command messages of the spec's
command-channel format. -/
def c9msgs : List String :=
  ["\x7b\"command\": \"set_mode\", \"value\": \"manual\"\x7d",
   "\x7b\"command\": \"force_phase\", \"value\": 2\x7d"]

/-- Counterexample to C9: after a SetMode(manual) message followed by a
ForcePhase(2) message, the very next simulation step issues no engine
call at all — in particular no phase-set to index 2 — because the
websocket endpoint discards every inbound message and the driver loop
never drains commands (simulation_server.py lines 220-228 and 54-101). -/
theorem force_phase_counterexample :
    stepTLS (handleClientMessages c9d c9msgs) (fun _ => 0) =
      some ({ c9d with timer := 1 }, []) := rfl

/-- C9 amended: a ForcePhase received while the mode is AUTO has no
effect — trivially so, because every inbound client message is
discarded; there is no manual mode, so even after a SetMode(manual)
message no ForcePhase is ever applied: the control step after any
message sequence is identical to the control step without it. -/
theorem client_messages_ignored (d : TlsData) (msgs : List String)
    (w : String → Nat) :
    handleClientMessages d msgs = d ∧
    stepTLS (handleClientMessages d msgs) w = stepTLS d w := by
  have h : handleClientMessages d msgs = d := by
    induction msgs with
    | nil => rfl
    | cons m rest ih => exact ih
  exact ⟨h, by rw [h]⟩
